import Mathlib

/-
Verification development for the FEC campaign data incremental update
engine (scripts/fec_update and scripts/fec of the repository).  Python
strings are modelled as lists of characters so that every definition is
executable by the kernel; delimited-file parsing, the HTTP client and the
file system are abstracted at the exact boundaries where the source code
meets them, and everything between those boundaries is translated
directly from the source.
-/

set_option maxRecDepth 4000

namespace FecModel

/-- Model of a Python string: its list of characters. -/
abbrev PyStr := List Char

/-- Python str.strip with no argument: remove whitespace from both ends. -/
def pyStrip (s : PyStr) : PyStr :=
  ((s.dropWhile Char.isWhitespace).reverse.dropWhile Char.isWhitespace).reverse

/-- Python str.split(sep) for a one-character separator: the list of
(possibly empty) chunks between occurrences of sep. -/
def pySplit (sep : Char) : PyStr → List PyStr
  | [] => [[]]
  | c :: rest =>
    if c = sep then [] :: pySplit sep rest
    else
      match pySplit sep rest with
      | [] => [[c]]
      | p :: ps => (c :: p) :: ps

/-- Decimal value of a list of digit characters (most significant first). -/
def decimalVal (ds : PyStr) : Nat :=
  ds.foldl (fun a c => 10 * a + (c.toNat - '0'.toNat)) 0

/-- Conversion of an unsigned digit string by Python int(): succeeds
exactly when the string is nonempty and all digits. -/
def pyIntDigits (ds : PyStr) : Option Int :=
  if ds ≠ [] ∧ ds.all Char.isDigit = true then some (Int.ofNat (decimalVal ds))
  else none

/-- Python int(s) on a string: surrounding whitespace is ignored, an
optional single leading sign is accepted, and the rest must be one or
more decimal digits.  (The underscore digit-group separator accepted by
CPython is not modelled; no input considered in this development uses
it.) -/
def pyInt (s : PyStr) : Option Int :=
  match pyStrip s with
  | [] => none
  | c :: rest =>
    if c = '+' then pyIntDigits rest
    else if c = '-' then (pyIntDigits rest).map (fun n : Int => -n)
    else pyIntDigits (c :: rest)

/-- Length-driven year extraction of extract_year_from_date
(scripts/fec/utils/dates.py, lines 37-51): for an 8-character string the
year is characters 4..8, for a 7-character string characters 3..7, and
any other length yields no value. -/
def yearByLength (s : PyStr) : Option Int :=
  if s.length = 8 then pyInt ((s.drop 4).take 4)
  else if s.length = 7 then pyInt ((s.drop 3).take 4)
  else none

/-- Shallow embedding of extract_year_from_date
(scripts/fec/utils/dates.py, lines 10-51).  The source takes str or None;
the slash branch returns only when the split has exactly three parts and
the third has four characters, otherwise control falls through to the
length-based branches applied to the whole string. -/
def extract_year_from_date (date_str : Option PyStr) : Option Int :=
  match date_str with
  | none => none
  | some s0 =>
    let s := pyStrip s0
    if s = [] then none
    else if s.contains '/' then
      match pySplit '/' s with
      | [_, _, p2] => if p2.length = 4 then pyInt p2 else yearByLength s
      | _ => yearByLength s
    else yearByLength s

/-- Length-driven month extraction of extract_month_from_date
(scripts/fec/utils/dates.py, lines 81-95): first two characters of an
8-character string, first character of a 7-character string. -/
def monthByLength (s : PyStr) : Option Int :=
  if s.length = 8 then pyInt (s.take 2)
  else if s.length = 7 then pyInt (s.take 1)
  else none

/-- Shallow embedding of extract_month_from_date
(scripts/fec/utils/dates.py, lines 54-95). -/
def extract_month_from_date (date_str : Option PyStr) : Option Int :=
  match date_str with
  | none => none
  | some s0 =>
    let s := pyStrip s0
    if s = [] then none
    else if s.contains '/' then
      match pySplit '/' s with
      | [p0, _, _] =>
        if p0.length = 1 ∨ p0.length = 2 then pyInt p0 else monthByLength s
      | _ => monthByLength s
    else monthByLength s

/-- CycleState from scripts/fec/config/loader.py (lines 99-107): the
cache validators stored for one (dataset, cycle) pair. -/
structure CycleState where
  etag : Option PyStr := none
  last_modified : Option PyStr := none
  content_length : Option Int := none
  last_updated : Option PyStr := none
deriving DecidableEq

/-- Python truthiness of an optional string: None and the empty string
are falsy. -/
def strTruthy : Option PyStr → Bool
  | none => false
  | some s => !s.isEmpty

/-- Python truthiness of an optional integer: None and 0 are falsy. -/
def intTruthy : Option Int → Bool
  | none => false
  | some n => n != 0

/-- has_changed from scripts/fec_update/detect.py (lines 32-52).  Each
guard mirrors a Python truthiness test of the pair of header values
followed by an inequality test; a guard whose pair is equal falls
through to the next comparison rather than returning. -/
def has_changed (old_state : Option CycleState) (new_state : CycleState) :
    Bool × String :=
  match old_state with
  | none => (true, "new cycle")
  | some old =>
    if strTruthy new_state.etag && strTruthy old.etag
        && (new_state.etag != old.etag) then
      (true, "etag changed")
    else if strTruthy new_state.last_modified && strTruthy old.last_modified
        && (new_state.last_modified != old.last_modified) then
      (true, "last-modified changed")
    else if intTruthy new_state.content_length && intTruthy old.content_length
        && (new_state.content_length != old.content_length) then
      (true, "content-length changed")
    else
      (false, "no change")

/-- Lookup in an association list, modelling a Python dict read. -/
def assocGet {κ ν : Type} [DecidableEq κ] (k : κ) : List (κ × ν) → Option ν
  | [] => none
  | (k0, v0) :: rest => if k0 = k then some v0 else assocGet k rest

/-- Update or insert in an association list, modelling a Python dict
assignment (an existing key keeps its position, as dicts keep insertion
order). -/
def assocSet {κ ν : Type} [DecidableEq κ] (k : κ) (v : ν) :
    List (κ × ν) → List (κ × ν)
  | [] => [(k, v)]
  | (k0, v0) :: rest =>
    if k0 = k then (k, v) :: rest else (k0, v0) :: assocSet k v rest

/-- UpdateState from scripts/fec/config/loader.py (lines 109-184).  The
source keys the inner dict by str(cycle); both update_cycle and
get_cycle_state apply str to the integer cycle before keying, and str is
injective on integers, so the model keys by the integer itself. -/
structure UpdateState where
  cycles : List (String × List (Int × CycleState)) := []
  last_check : Option String := none
deriving DecidableEq

/-- UpdateState.update_cycle (loader.py lines 161-178): create the inner
dict for the dataset when absent, then overwrite the entry for the cycle
with a fresh CycleState carrying the given validators and the current
time as last_updated (datetime.now() is passed in as now). -/
def UpdateState.update_cycle (s : UpdateState) (dataset : String) (cycle : Int)
    (etag : Option PyStr) (last_modified : Option PyStr)
    (content_length : Option Int) (now : PyStr) : UpdateState :=
  let inner := (assocGet dataset s.cycles).getD []
  { s with
    cycles := assocSet dataset
      (assocSet cycle
        { etag := etag, last_modified := last_modified,
          content_length := content_length, last_updated := some now }
        inner)
      s.cycles }

/-- UpdateState.get_cycle_state (loader.py lines 180-184). -/
def UpdateState.get_cycle_state (s : UpdateState) (dataset : String)
    (cycle : Int) : Option CycleState :=
  match assocGet dataset s.cycles with
  | none => none
  | some inner => assocGet cycle inner

/-- Decimal rendering of an integer, as Python str(cycle). -/
def intToPyStr (i : Int) : PyStr :=
  match i with
  | Int.ofNat n => Nat.toDigits 10 n
  | Int.negSucc n => '-' :: Nat.toDigits 10 (n + 1)

/-- get_fec_zip_url (loader.py lines 199-204): base url, slash, cycle,
slash, filename stem, the last two digits of the cycle (str(cycle)[2:]),
and the archive extension. -/
def get_fec_zip_url (base_url : PyStr) (stem : PyStr) (cycle : Int) : PyStr :=
  base_url ++ ['/'] ++ intToPyStr cycle ++ ['/'] ++ stem
    ++ (intToPyStr cycle).drop 2 ++ ".zip".toList

/-- ChangeInfo from scripts/fec_update/detect.py (lines 19-29). -/
structure ChangeInfo where
  dataset : String
  cycle : Int
  url : PyStr
  reason : String
  new_etag : Option PyStr := none
  new_last_modified : Option PyStr := none
  new_content_length : Option Int := none
deriving DecidableEq

/-- CombineDataset from scripts/fec/config/loader.py (lines 12-21).  The
field holding the FEC filename stem is named fec_stub here; its source
name is fec_\x70refix. -/
structure CombineDataset where
  name : String
  output_file : String
  fec_stub : PyStr
  start_year : Int
  columns : List String
deriving DecidableEq

/-- SummarizeDataset from scripts/fec/config/loader.py (lines 24-40),
restricted to the fields the modelled pipeline reads; the configured
column selections (memo_field, amendment_field, sub_id_field, date_field,
amount_field, group_by, column_mapping) are made structural in InRecord
below.  The stem field is named as in CombineDataset. -/
structure SummarizeDataset where
  name : String
  output_file : String
  fec_stub : PyStr
  start_year : Int
deriving DecidableEq

/-- The configuration fields of Config (loader.py lines 43-51) that the
claims touch; the dataset dicts are insertion-ordered association
structures, modelled as lists. -/
structure Config where
  fec_base_url : PyStr
  combine_datasets : List CombineDataset
  summarize_datasets : List SummarizeDataset
deriving DecidableEq

/-- The force-mode synthesis block of the run command
(scripts/fec_update/cli.py, lines 125-156): executed only on the path
where force is set and detection produced no changes, it builds a
ChangeInfo with reason forced for every combine dataset and every
requested cycle at or after start_year, then the same for every
summarize dataset except expenditures_by_state (which shares its source
file with expenditures_by_category).  The synthesized records carry no
captured metadata (the three new_* fields keep their None defaults). -/
def synthesize_forced (config : Config) (cycles : List Int) : List ChangeInfo :=
  (config.combine_datasets.flatMap (fun d =>
    (cycles.filter (fun c => decide (d.start_year ≤ c))).map (fun c =>
      { dataset := d.name, cycle := c,
        url := get_fec_zip_url config.fec_base_url d.fec_stub c,
        reason := "forced" })))
  ++ (config.summarize_datasets.flatMap (fun d =>
    if d.name = "expenditures_by_state" then []
    else
      (cycles.filter (fun c => decide (d.start_year ≤ c))).map (fun c =>
        { dataset := d.name, cycle := c,
          url := get_fec_zip_url config.fec_base_url d.fec_stub c,
          reason := "forced" })))

/-- Which Change Records the run command hands to integration
(cli.py, lines 119-158): when detection found nothing and force is off
the command returns early (no integration at all, modelled as none);
when force is on and detection found nothing, the synthesized forced
records; otherwise exactly the detected records. -/
def run_changes_to_integrate (detected : List ChangeInfo) (force : Bool)
    (config : Config) (cycles : List Int) : Option (List ChangeInfo) :=
  if detected.isEmpty && !force then none
  else if force && detected.isEmpty then some (synthesize_forced config cycles)
  else some detected

/-- Insertion of one element into a list sorted by the boolean comparator
le: the model of one step of the sort performed by DataFrame.sort. -/
def insertLe {β : Type} (le : β → β → Bool) (x : β) : List β → List β
  | [] => [x]
  | y :: ys => if le x y then x :: y :: ys else y :: insertLe le x ys

/-- Model of DataFrame.sort: a comparison sort by the comparator le.  The
claims proved below are stated up to permutation, so they are
independent of which comparison sort the dataframe library uses. -/
def sortLe {β : Type} (le : β → β → Bool) : List β → List β
  | [] => []
  | x :: xs => insertLe le x (sortLe le xs)

/-- First occurrences of each distinct element, in order of first
appearance. -/
def firstOccs {β : Type} [DecidableEq β] (seen : List β) : List β → List β
  | [] => []
  | b :: rest =>
    if b ∈ seen then firstOccs seen rest
    else b :: firstOccs (b :: seen) rest

/-- One directory of output files as seen by write_output: the slot at
the real output path, the slot at the .csv.bak backup path, and the slot
at the .csv.tmp temporary path.  A slot holds the content of the file at
that path, or none when no file exists there. -/
structure OutputDir (β : Type) where
  output : Option β
  bak : Option β
  tmp : Option β
deriving DecidableEq

/-- The successive file-system states effected by write_output
(scripts/fec_update/processors/combine.py lines 76-92 and
summarize.py lines 186-203; the two bodies are identical).  State 0 is
on entry.  Step 1 is the backup rename: when backup is set and a file
exists at the output path, that file is renamed to the .csv.bak path.
Step 2 writes the sorted table to the .csv.tmp path.  Step 3 renames the
temporary file over the output path.  A process interrupted after k of
the three steps leaves the directory in state k; the only step that
makes the new content visible at the output path is step 3. -/
def write_output_state {β : Type} (dir : OutputDir β) (content : β)
    (backup : Bool) : Nat → OutputDir β
  | 0 => dir
  | Nat.succ k =>
    let prev := write_output_state dir content backup k
    if k = 0 then
      if backup && prev.output.isSome then
        { prev with output := none, bak := prev.output }
      else prev
    else if k = 1 then { prev with tmp := some content }
    else if k = 2 then { prev with output := prev.tmp, tmp := none }
    else prev

namespace CombineProcessor

/-- process_cycle (combine.py lines 20-51): parse the raw period file and
prepend the election_cycle column; no filtering, no deduplication.  The
delimited parse is abstracted: raw is the list of successfully parsed
records (ignore_errors=True has already dropped malformed rows), and a
produced row is the cycle paired with the record. -/
def process_cycle {α : Type} (raw : List α) (cycle : Int) : List (Int × α) :=
  raw.map (fun r => (cycle, r))

/-- remove_cycle (combine.py lines 65-67): keep the rows whose
election_cycle differs from the given cycle. -/
def remove_cycle {α : Type} (df : List (Int × α)) (cycle : Int) :
    List (Int × α) :=
  df.filter (fun r => r.1 != cycle)

/-- append_cycle (combine.py lines 69-74). -/
def append_cycle {α : Type} (existing : Option (List (Int × α)))
    (new_data : List (Int × α)) : List (Int × α) :=
  match existing with
  | none => new_data
  | some e => e ++ new_data

/-- The in-memory sort of write_output (combine.py line 85):
df.sort on the election_cycle column. -/
def sort_output {α : Type} (df : List (Int × α)) : List (Int × α) :=
  sortLe (fun a b => decide (a.1 ≤ b.1)) df

/-- update_cycle (combine.py lines 94-128) on the non-dry-run path,
composed with the content computation of write_output: process the new
rows, drop the rows of this cycle from the existing output when one
exists, append the new rows, and sort.  The returned list is the table
that write_output persists. -/
def update_cycle {α : Type} (existing : Option (List (Int × α)))
    (raw : List α) (cycle : Int) : List (Int × α) :=
  let new_data := process_cycle raw cycle
  let existing2 :=
    match existing with
    | none => none
    | some e => some (remove_cycle e cycle)
  sort_output (append_cycle existing2 new_data)

end CombineProcessor

namespace SummarizeProcessor

/-- One parsed input record of the summarize pipeline
(summarize.py lines 80-105), with the configured column selections of
the SummarizeDataset made structural: memo_cd is the cell of the
configured memo_field, amndt_ind of the amendment_field, sub_id of the
sub_id_field, transaction_dt of the date_field, amount of the
amount_field, and dims bundles the cells of the configured dimension
grouping columns. -/
structure InRecord (κ : Type) where
  memo_cd : Option PyStr
  amndt_ind : Option PyStr
  sub_id : Int
  transaction_dt : Option PyStr
  amount : Int
  dims : κ
deriving DecidableEq

/-- One aggregated output row (summarize.py lines 148-156). -/
structure OutRow (κ : Type) where
  election_cycle : Int
  transaction_year : Option Int
  dims : κ
  total_amount : Int
  transaction_count : Nat
deriving DecidableEq

/-- The memo filter (summarize.py lines 93-96): keep a record when the
memo marker cell is null or differs from the sentinel X. -/
def memo_filter {κ : Type} (rows : List (InRecord κ)) : List (InRecord κ) :=
  rows.filter (fun r => r.memo_cd.isNone || (r.memo_cd != some ['X']))

/-- The amendment filter (summarize.py lines 98-102): keep a record when
the amendment marker cell is null or equals the sentinel N. -/
def amendment_filter {κ : Type} (rows : List (InRecord κ)) :
    List (InRecord κ) :=
  rows.filter (fun r => r.amndt_ind.isNone || (r.amndt_ind == some ['N']))

/-- The deduplication step (summarize.py line 105):
unique(subset=[sub_id], keep="first") keeps the first record seen for
each sub_id. -/
def dedup_first {κ : Type} (seen : List Int) :
    List (InRecord κ) → List (InRecord κ)
  | [] => []
  | r :: rest =>
    if r.sub_id ∈ seen then dedup_first seen rest
    else r :: dedup_first (r.sub_id :: seen) rest

/-- The grouping key of a record (summarize.py lines 119-146): the
election_cycle literal for this cycle, the transaction_year derived by
the shared date-extraction rule from the date cell, and the dimension
cells. -/
def group_key {κ : Type} (cycle : Int) (r : InRecord κ) :
    Int × Option Int × κ :=
  (cycle, extract_year_from_date r.transaction_dt, r.dims)

/-- The aggregation (summarize.py lines 148-156): group by the grouping
key, sum the amount into total_amount and count the rows into
transaction_count.  The dataframe library does not fix the order of the
groups; the model emits them in order of first appearance, and every
property proved about the result is stated up to permutation. -/
def group_and_aggregate {κ : Type} [DecidableEq κ]
    (rows : List (InRecord κ)) (cycle : Int) : List (OutRow κ) :=
  let keys := firstOccs [] (rows.map (group_key cycle))
  keys.map (fun k =>
    let grp := rows.filter (fun r => group_key cycle r = k)
    { election_cycle := k.1, transaction_year := k.2.1, dims := k.2.2,
      total_amount := (grp.map (fun r => r.amount)).sum,
      transaction_count := grp.length })

/-- process_cycle (summarize.py lines 64-161), in the exact order of the
source: memo filter, amendment filter, deduplication by sub_id keeping
the first occurrence, year derivation from the date column, then group
and sum. -/
def process_cycle {κ : Type} [DecidableEq κ] (raw : List (InRecord κ))
    (cycle : Int) : List (OutRow κ) :=
  let r1 := memo_filter raw
  let r2 := amendment_filter r1
  let r3 := dedup_first [] r2
  group_and_aggregate r3 cycle

/-- remove_cycle (summarize.py lines 175-177). -/
def remove_cycle {κ : Type} (df : List (OutRow κ)) (cycle : Int) :
    List (OutRow κ) :=
  df.filter (fun r => r.election_cycle != cycle)

/-- append_cycle (summarize.py lines 179-184). -/
def append_cycle {κ : Type} (existing : Option (List (OutRow κ)))
    (new_data : List (OutRow κ)) : List (OutRow κ) :=
  match existing with
  | none => new_data
  | some e => e ++ new_data

/-- update_cycle (summarize.py lines 205-239) on the non-dry-run path,
composed with the content computation of write_output (which sorts by
the group-by columns; the comparator that the dataframe library derives
from those columns is passed in as le). -/
def update_cycle {κ : Type} [DecidableEq κ]
    (le : OutRow κ → OutRow κ → Bool) (existing : Option (List (OutRow κ)))
    (raw : List (InRecord κ)) (cycle : Int) : List (OutRow κ) :=
  let new_data := process_cycle raw cycle
  let existing2 :=
    match existing with
    | none => none
    | some e => some (remove_cycle e cycle)
  sortLe le (append_cycle existing2 new_data)

end SummarizeProcessor

/-- The outcome of process_change (scripts/fec_update/integrate.py lines
34-90) for one Change Record, as observed at the integrate_changes
boundary: the call returns a boolean, or raises an exception that the
enclosing except block catches.  Downloads, extraction and the
processors run inside this call; the oracle abstracts their combined
effectful result. -/
inductive ProcessOutcome where
  | ok (success : Bool)
  | raised (msg : String)
deriving DecidableEq

/-- integrate_changes (integrate.py lines 93-136): process the records
one at a time; a record whose processing returns true is counted
successful and, outside dry runs, the in-memory Update State entry for
its (dataset, cycle) is overwritten with the captured metadata of the
record; a record whose processing returns false or raises is counted
failed and the loop continues.  Returns (successful, failed, final
state).  datetime.now() is passed in as now. -/
def integrate_changes (changes : List ChangeInfo)
    (outcome : ChangeInfo → ProcessOutcome) (state : UpdateState)
    (dry_run : Bool) (now : PyStr) : Nat × Nat × UpdateState :=
  match changes with
  | [] => (0, 0, state)
  | change :: rest =>
    match outcome change with
    | ProcessOutcome.ok true =>
      let state2 :=
        if dry_run then state
        else
          state.update_cycle change.dataset change.cycle change.new_etag
            change.new_last_modified change.new_content_length now
      let r := integrate_changes rest outcome state2 dry_run now
      (r.1 + 1, r.2.1, r.2.2)
    | ProcessOutcome.ok false =>
      let r := integrate_changes rest outcome state dry_run now
      (r.1, r.2.1 + 1, r.2.2)
    | ProcessOutcome.raised _ =>
      let r := integrate_changes rest outcome state dry_run now
      (r.1, r.2.1 + 1, r.2.2)

/-- The observable outcome of the run command after detection
(cli.py lines 160-177). -/
structure RunOutcome where
  successful : Nat
  failed : Nat
  final_state : UpdateState
  saves : List UpdateState
  exit_failure : Bool
deriving DecidableEq

/-- The tail of the run command (cli.py lines 160-177): integrate all
records, then, only when this is not a dry run and at least one record
succeeded, set last_check and save the state; saves lists the state.save
calls in order.  The process exits nonzero when any record failed. -/
def run_after_detect (changes : List ChangeInfo)
    (outcome : ChangeInfo → ProcessOutcome) (state : UpdateState)
    (dry_run : Bool) (now : PyStr) (check_time : String) : RunOutcome :=
  let r := integrate_changes changes outcome state dry_run now
  if !dry_run && r.1 != 0 then
    let st2 := { r.2.2 with last_check := some check_time }
    { successful := r.1, failed := r.2.1, final_state := st2,
      saves := [st2], exit_failure := r.2.1 != 0 }
  else
    { successful := r.1, failed := r.2.1, final_state := r.2.2,
      saves := [], exit_failure := r.2.1 != 0 }

/-- The issues that the verifier can report
(scripts/fec_update/verify.py); the counts embedded in the formatted
message strings of the source are carried as data. -/
inductive Issue where
  | failed_to_read
  | missing_election_cycle
  | null_election_cycle (count : Nat)
  | file_is_empty
  | extreme_amounts (count : Nat)
  | nonpositive_counts (count : Nat)
  | file_not_found
deriving DecidableEq

/-- A loaded CSV file as the verifier sees it: the column names and, for
each row, the cells as an association from column name to an optional
integer value (none models a null cell; a column name absent from a row
also reads as null). -/
structure DFrame where
  columns : List String
  rows : List (List (String × Option Int))
deriving DecidableEq

/-- Cell lookup in a row. -/
def cellOf (row : List (String × Option Int)) (col : String) : Option Int :=
  match assocGet col row with
  | none => none
  | some v => v

/-- ValidationResult from verify.py (lines 15-30), with is_valid below. -/
structure ValidationResult where
  file_name : String
  row_count : Nat
  column_count : Nat
  has_election_cycle : Bool
  null_election_cycle : Nat
  min_cycle : Option Int
  max_cycle : Option Int
  issues : List Issue
deriving DecidableEq

/-- is_valid (verify.py lines 28-30): no issues were recorded. -/
def ValidationResult.is_valid (r : ValidationResult) : Bool :=
  r.issues.isEmpty

/-- Comparator on optional cycles placing null first, as the dataframe
sort of the unique cycle values does by default. -/
def optIntLe : Option Int → Option Int → Bool
  | none, _ => true
  | some _, none => false
  | some a, some b => decide (a ≤ b)

/-- validate_file (verify.py lines 33-92) on a successfully read frame:
record the row and column counts; when the election_cycle column is
absent report that issue, otherwise count the null cycle cells
(reporting the count when nonzero) and record the least and greatest
distinct cycle value; report an empty file.  No other check is made on
an existing file by this function. -/
def validate_file (file_name : String) (df : DFrame) : ValidationResult :=
  let row_count := df.rows.length
  let column_count := df.columns.length
  let has_ec := df.columns.contains "election_cycle"
  let base :=
    if has_ec then
      let null_count :=
        (df.rows.filter (fun r => (cellOf r "election_cycle").isNone)).length
      let cyc := sortLe optIntLe
        (firstOccs [] (df.rows.map (fun r => cellOf r "election_cycle")))
      { file_name := file_name, row_count := row_count,
        column_count := column_count, has_election_cycle := true,
        null_election_cycle := null_count,
        min_cycle := (cyc.head?).getD none,
        max_cycle := (cyc.getLast?).getD none,
        issues :=
          if null_count ≠ 0 then [Issue.null_election_cycle null_count]
          else [] : ValidationResult }
    else
      { file_name := file_name, row_count := row_count,
        column_count := column_count, has_election_cycle := false,
        null_election_cycle := 0, min_cycle := none, max_cycle := none,
        issues := [Issue.missing_election_cycle] }
  if row_count = 0 then { base with issues := base.issues ++ [Issue.file_is_empty] }
  else base

/-- validate_transaction_amounts (verify.py lines 95-119): nothing is
checked when the file has no total_amount column; otherwise the rows
whose total_amount exceeds one trillion in absolute value are counted
(a null cell never exceeds the threshold), and, when a transaction_count
column exists, so are the rows with a nonpositive count. -/
def validate_transaction_amounts (df : DFrame) : List Issue :=
  if df.columns.contains "total_amount" then
    let extreme :=
      (df.rows.filter (fun r =>
        match cellOf r "total_amount" with
        | none => false
        | some v => decide (1000000000000 < v.natAbs))).length
    let part1 := if extreme ≠ 0 then [Issue.extreme_amounts extreme] else []
    if df.columns.contains "transaction_count" then
      let zcount :=
        (df.rows.filter (fun r =>
          match cellOf r "transaction_count" with
          | none => false
          | some v => decide (v ≤ 0))).length
      part1 ++ (if zcount ≠ 0 then [Issue.nonpositive_counts zcount] else [])
    else part1
  else []

/-- The result verify_all builds for a dataset whose output file does
not exist (verify.py lines 152-164 and 175-187). -/
def missing_file_result (file_name : String) : ValidationResult :=
  { file_name := file_name, row_count := 0, column_count := 0,
    has_election_cycle := false, null_election_cycle := 0,
    min_cycle := none, max_cycle := none,
    issues := [Issue.file_not_found] }

/-- verify_all (verify.py lines 140-189): for every combine dataset
whose output file exists run validate_file, reporting a missing file as
its own issue; then the same for every summarize dataset, additionally
appending the transaction-amount issues.  The function only reads: fs
maps an output file name to its loaded frame when the file exists. -/
def verify_all (combine : List CombineDataset)
    (summarize : List SummarizeDataset) (fs : String → Option DFrame) :
    List ValidationResult :=
  (combine.map (fun d =>
    match fs d.output_file with
    | some df => validate_file d.output_file df
    | none => missing_file_result d.output_file))
  ++ (summarize.map (fun d =>
    match fs d.output_file with
    | some df =>
      let r := validate_file d.output_file df
      { r with issues := r.issues ++ validate_transaction_amounts df }
    | none => missing_file_result d.output_file))

/-- A combine dataset used by the concrete instances below. -/
def exampleCombineDataset : CombineDataset :=
  { name := "candidates", output_file := "candidates.csv",
    fec_stub := "cn".toList, start_year := 1980,
    columns := ["CAND_ID", "CAND_NAME"] }

/-- A summarize dataset used by the concrete instances below. -/
def exampleSummarizeDataset : SummarizeDataset :=
  { name := "contributions_by_state",
    output_file := "contributions_by_state.csv",
    fec_stub := "indiv".toList, start_year := 1980 }

/-- A small configuration with one dataset of each strategy. -/
def exampleConfig : Config :=
  { fec_base_url := "https://www.fec.gov/files/bulk-downloads".toList,
    combine_datasets := [exampleCombineDataset],
    summarize_datasets := [exampleSummarizeDataset] }

/-- A detected (non-forced) change for cycle 2020 of the combine
dataset. -/
def exampleDetected : ChangeInfo :=
  { dataset := "candidates", cycle := 2020,
    url := get_fec_zip_url exampleConfig.fec_base_url
      exampleCombineDataset.fec_stub 2020,
    reason := "etag changed", new_etag := some ['a'] }

/-- A change record whose processing will raise in the example outcome
oracle below. -/
def exampleChangeFailing : ChangeInfo :=
  { dataset := "bad", cycle := 2020, url := [], reason := "new cycle" }

/-- A change record whose processing succeeds in the example outcome
oracle below. -/
def exampleChangeOk : ChangeInfo :=
  { dataset := "candidates", cycle := 2022, url := [],
    reason := "etag changed", new_etag := some ['z'] }

/-- An outcome oracle raising on the failing record and succeeding
elsewhere. -/
def exampleOutcome : ChangeInfo → ProcessOutcome := fun ch =>
  if ch.dataset = "bad" then ProcessOutcome.raised "boom"
  else ProcessOutcome.ok true

/-- A loaded output frame whose only column is election_cycle and whose
single row has the implausible cycle 9999. -/
def exampleFrame : DFrame :=
  { columns := ["election_cycle"],
    rows := [[("election_cycle", some 9999)]] }

/-- A memo-marked input record. -/
def exampleMemoRecord : SummarizeProcessor.InRecord PyStr :=
  { memo_cd := some ['X'], amndt_ind := some ['N'], sub_id := 1,
    transaction_dt := some "01152024".toList, amount := 100, dims := ['A'] }

/-- An amendment-marked input record. -/
def exampleAmendmentRecord : SummarizeProcessor.InRecord PyStr :=
  { memo_cd := none, amndt_ind := some ['A'], sub_id := 2,
    transaction_dt := some "01152024".toList, amount := 200, dims := ['A'] }

/-- The first of two original records sharing the natural key 3. -/
def exampleOriginalA : SummarizeProcessor.InRecord PyStr :=
  { memo_cd := none, amndt_ind := some ['N'], sub_id := 3,
    transaction_dt := some "01152024".toList, amount := 10, dims := ['A'] }

/-- The second of two original records sharing the natural key 3. -/
def exampleOriginalB : SummarizeProcessor.InRecord PyStr :=
  { memo_cd := none, amndt_ind := some ['N'], sub_id := 3,
    transaction_dt := some "01152024".toList, amount := 20, dims := ['A'] }

/-- A stored aggregated output row for period 2020. -/
def exampleOutRow : SummarizeProcessor.OutRow Int :=
  { election_cycle := 2020, transaction_year := some 2019, dims := 0,
    total_amount := 3, transaction_count := 1 }

/-! Helper lemmas shared by the claim theorems. -/

lemma insertLe_perm {β : Type} (le : β → β → Bool) (x : β) (l : List β) :
    (insertLe le x l).Perm (x :: l) := by
  induction l with
  | nil => simp [insertLe]
  | cons y ys ih =>
    by_cases h : le x y = true
    · simp [insertLe, h]
    · rw [insertLe, if_neg h]
      exact (ih.cons y).trans (List.Perm.swap x y ys)

lemma sortLe_perm {β : Type} (le : β → β → Bool) (l : List β) :
    (sortLe le l).Perm l := by
  induction l with
  | nil => simp [sortLe]
  | cons x xs ih =>
    exact ((insertLe_perm le x (sortLe le xs)).trans (ih.cons x))

lemma assocGet_assocSet_same {κ ν : Type} [DecidableEq κ] (k : κ) (v : ν)
    (l : List (κ × ν)) : assocGet k (assocSet k v l) = some v := by
  induction l with
  | nil => simp [assocGet, assocSet]
  | cons p rest ih =>
    by_cases h : p.1 = k
    · simp [assocSet, assocGet, h]
    · simp [assocSet, assocGet, h, ih]

lemma assocGet_assocSet_other {κ ν : Type} [DecidableEq κ] {k k2 : κ}
    (v : ν) (l : List (κ × ν)) (h : k2 ≠ k) :
    assocGet k2 (assocSet k v l) = assocGet k2 l := by
  have hks : k ≠ k2 := Ne.symm h
  induction l with
  | nil => simp [assocGet, assocSet, hks]
  | cons p rest ih =>
    by_cases hp : p.1 = k
    · simp [assocSet, assocGet, hp, hks]
    · simp [assocSet, assocGet, hp, ih]

lemma get_update_cycle_same (s : UpdateState) (dataset : String) (cycle : Int)
    (etag last_modified : Option PyStr) (content_length : Option Int)
    (now : PyStr) :
    (s.update_cycle dataset cycle etag last_modified content_length
        now).get_cycle_state dataset cycle
    = some { etag := etag, last_modified := last_modified,
             content_length := content_length, last_updated := some now } := by
  simp [UpdateState.update_cycle, UpdateState.get_cycle_state,
    assocGet_assocSet_same]

lemma get_update_cycle_other (s : UpdateState) {d2 : String} {c2 : Int}
    (dataset : String) (cycle : Int) (etag last_modified : Option PyStr)
    (content_length : Option Int) (now : PyStr)
    (h : ¬(dataset = d2 ∧ cycle = c2)) :
    (s.update_cycle dataset cycle etag last_modified content_length
        now).get_cycle_state d2 c2
    = s.get_cycle_state d2 c2 := by
  by_cases hd : dataset = d2
  · subst hd
    have hc : c2 ≠ cycle := fun hh => h ⟨rfl, hh.symm⟩
    simp only [UpdateState.update_cycle, UpdateState.get_cycle_state,
      assocGet_assocSet_same, assocGet_assocSet_other _ _ hc]
    cases hg : assocGet dataset s.cycles with
    | none => simp [hg, Option.getD, assocGet]
    | some inner => simp [hg, Option.getD]
  · simp [UpdateState.update_cycle, UpdateState.get_cycle_state,
      assocGet_assocSet_other _ _ (fun hh => hd hh.symm)]

lemma filter_beq_of_all {β : Type} (f : β → Int) (l : List β) (P : Int)
    (h : ∀ b ∈ l, f b = P) : l.filter (fun b => f b == P) = l := by
  rw [List.filter_eq_self]
  intro b hb
  simp [h b hb]

lemma filter_bne_then_beq {β : Type} (f : β → Int) (l : List β) (P : Int) :
    (l.filter (fun b => f b != P)).filter (fun b => f b == P) = [] := by
  rw [List.filter_eq_nil_iff]
  intro b hb
  have := (List.mem_filter.mp hb).2
  simpa using this

lemma filter_bne_then_beq_other {β : Type} (f : β → Int) (l : List β)
    {P Q : Int} (hQP : Q ≠ P) :
    (l.filter (fun b => f b != P)).filter (fun b => f b == Q)
    = l.filter (fun b => f b == Q) := by
  have hPQ : P ≠ Q := Ne.symm hQP
  induction l with
  | nil => rfl
  | cons b rest ih =>
    by_cases hb : f b = Q
    · have hbP : (f b != P) = true := by simp [hb, hQP]
      simp [List.filter_cons, hb, hbP, hQP, ih]
    · by_cases hbP : f b = P
      · simp [List.filter_cons, hb, hbP, hQP, hPQ, ih]
      · simp [List.filter_cons, hb, hbP, ih]

lemma filter_beq_of_all_other {β : Type} (f : β → Int) (l : List β)
    {P Q : Int} (h : ∀ b ∈ l, f b = P) (hQP : Q ≠ P) :
    l.filter (fun b => f b == Q) = [] := by
  rw [List.filter_eq_nil_iff]
  intro b hb
  simp [h b hb, Ne.symm hQP]

/-- The written table of a replace-by-period update, restricted to the
updated period, is exactly the freshly computed row-set. -/
lemma sorted_update_filter_self {β : Type} (le : β → β → Bool) (f : β → Int)
    (e new : List β) (P : Int) (hnew : ∀ b ∈ new, f b = P) :
    ((sortLe le ((e.filter (fun b => f b != P)) ++ new)).filter
        (fun b => f b == P) : Multiset β)
    = (new : Multiset β) := by
  rw [Multiset.coe_eq_coe]
  have h1 := (sortLe_perm le ((e.filter (fun b => f b != P)) ++ new)).filter
    (fun b => f b == P)
  have h2 : ((e.filter (fun b => f b != P)) ++ new).filter
      (fun b => f b == P) = new := by
    rw [List.filter_append, filter_bne_then_beq, filter_beq_of_all f new P hnew]
    simp
  rw [h2] at h1
  exact h1

/-- The written table of a replace-by-period update, restricted to any
other period, is exactly the previously stored row-set for that
period. -/
lemma sorted_update_filter_other {β : Type} (le : β → β → Bool) (f : β → Int)
    (e new : List β) {P Q : Int} (hnew : ∀ b ∈ new, f b = P) (hQP : Q ≠ P) :
    ((sortLe le ((e.filter (fun b => f b != P)) ++ new)).filter
        (fun b => f b == Q) : Multiset β)
    = (e.filter (fun b => f b == Q) : Multiset β) := by
  rw [Multiset.coe_eq_coe]
  have h1 := (sortLe_perm le ((e.filter (fun b => f b != P)) ++ new)).filter
    (fun b => f b == Q)
  have h2 : ((e.filter (fun b => f b != P)) ++ new).filter
      (fun b => f b == Q) = e.filter (fun b => f b == Q) := by
    rw [List.filter_append, filter_bne_then_beq_other f e hQP,
      filter_beq_of_all_other f new hnew hQP]
    simp
  rw [h2] at h1
  exact h1

lemma mem_firstOccs {β : Type} [DecidableEq β] {b : β} :
    ∀ {seen : List β} {l : List β}, b ∈ firstOccs seen l → b ∈ l := by
  intro seen l
  induction l generalizing seen with
  | nil => intro h; simp [firstOccs] at h
  | cons x rest ih =>
    intro h
    by_cases hx : x ∈ seen
    · exact List.mem_cons_of_mem x (ih (by simpa [firstOccs, hx] using h))
    · simp only [firstOccs, hx, if_neg, not_false_iff] at h
      rcases List.mem_cons.mp h with h1 | h1
      · exact h1 ▸ List.mem_cons_self x rest
      · exact List.mem_cons_of_mem x (ih h1)

/-- Every aggregated row that the summarize transform produces carries
the integrated cycle as its election_cycle. -/
lemma summarize_process_cycle_all_cycle {κ : Type} [DecidableEq κ]
    (raw : List (SummarizeProcessor.InRecord κ)) (cycle : Int) :
    ∀ r ∈ SummarizeProcessor.process_cycle raw cycle,
      r.election_cycle = cycle := by
  intro r hr
  simp only [SummarizeProcessor.process_cycle,
    SummarizeProcessor.group_and_aggregate, List.mem_map] at hr
  obtain ⟨k, hk, hkr⟩ := hr
  have hkmem := mem_firstOccs hk
  simp only [List.mem_map] at hkmem
  obtain ⟨rec, _, hrec⟩ := hkmem
  have hk1 : k.1 = cycle := by
    rw [← hrec]; rfl
  rw [← hkr]
  exact hk1

/-- Every row the combine transform produces carries the integrated
cycle as its leading election_cycle column. -/
lemma combine_process_cycle_all_cycle {α : Type} (raw : List α) (cycle : Int) :
    ∀ r ∈ CombineProcessor.process_cycle raw cycle, r.1 = cycle := by
  intro r hr
  simp only [CombineProcessor.process_cycle, List.mem_map] at hr
  obtain ⟨a, _, ha⟩ := hr
  rw [← ha]

lemma isDigit_ne {c c2 : Char} (h : c.isDigit = true)
    (h2 : c2.isDigit = false) : c ≠ c2 := by
  intro he
  rw [he, h2] at h
  cases h

lemma isDigit_isWhitespace_false {c : Char} (h : c.isDigit = true) :
    c.isWhitespace = false := by
  have h1 : c ≠ ' ' := isDigit_ne h (by decide)
  have h2 : c ≠ '\t' := isDigit_ne h (by decide)
  have h3 : c ≠ '\r' := isDigit_ne h (by decide)
  have h4 : c ≠ '\n' := isDigit_ne h (by decide)
  simp [Char.isWhitespace, h1, h2, h3, h4]

lemma dropWhile_ws_of_digits : ∀ {l : PyStr}, l.all Char.isDigit = true →
    l.dropWhile Char.isWhitespace = l := by
  intro l h
  cases l with
  | nil => rfl
  | cons c rest =>
    rw [List.all_cons, Bool.and_eq_true] at h
    rw [List.dropWhile_cons, isDigit_isWhitespace_false h.1]
    simp

lemma pyStrip_of_digits {l : PyStr} (h : l.all Char.isDigit = true) :
    pyStrip l = l := by
  unfold pyStrip
  rw [dropWhile_ws_of_digits h,
    dropWhile_ws_of_digits (by rw [List.all_reverse]; exact h),
    List.reverse_reverse]

lemma contains_slash_false : ∀ {l : PyStr}, l.all Char.isDigit = true →
    l.contains '/' = false := by
  intro l h
  induction l with
  | nil => rfl
  | cons c rest ih =>
    rw [List.all_cons, Bool.and_eq_true] at h
    rw [List.contains_cons, ih h.2,
      beq_eq_false_iff_ne.mpr (Ne.symm (isDigit_ne h.1 (by decide)))]
    rfl

lemma pyInt_of_digits {l : PyStr} (hne : l ≠ [])
    (hd : l.all Char.isDigit = true) :
    pyInt l = some (Int.ofNat (decimalVal l)) := by
  cases l with
  | nil => exact absurd rfl hne
  | cons c rest =>
    rw [List.all_cons, Bool.and_eq_true] at hd
    have hstrip : pyStrip (c :: rest) = c :: rest :=
      pyStrip_of_digits (by rw [List.all_cons, Bool.and_eq_true]; exact hd)
    have hplus : c ≠ '+' := isDigit_ne hd.1 (by decide)
    have hminus : c ≠ '-' := isDigit_ne hd.1 (by decide)
    unfold pyInt
    rw [hstrip]
    show (if c = '+' then pyIntDigits rest
      else if c = '-' then Option.map (fun n : Int => -n) (pyIntDigits rest)
      else pyIntDigits (c :: rest)) = some (Int.ofNat (decimalVal (c :: rest)))
    rw [if_neg hplus, if_neg hminus]
    unfold pyIntDigits
    rw [if_pos ⟨List.cons_ne_nil c rest,
      by rw [List.all_cons, Bool.and_eq_true]; exact hd⟩]

lemma write_output_state_one {β : Type} (dir : OutputDir β) (content : β)
    (backup : Bool) :
    write_output_state dir content backup 1
    = (if backup && dir.output.isSome then
        { dir with output := none, bak := dir.output }
      else dir) := rfl

lemma write_output_state_two {β : Type} (dir : OutputDir β) (content : β)
    (backup : Bool) :
    write_output_state dir content backup 2
    = { write_output_state dir content backup 1 with tmp := some content } :=
  rfl

/-- Claim C1, counterexample: with the backup flag at its call-site value
(true), a run of write_output interrupted after the backup rename (one
completed step, hence before the final rename) leaves no file at all at
the output path, so the pre-existing output file is not unchanged at its
path: the source renames the existing output to the .csv.bak path before
writing the temporary file. -/
theorem C1_counterexample :
    (write_output_state ({ output := some 5, bak := none, tmp := none } :
        OutputDir Nat) 7 true 1).output = none
    ∧ ({ output := some 5, bak := none, tmp := none } :
        OutputDir Nat).output = some 5 := by
  decide

/-- Claim C1 (amended): the write step renames the pre-existing output
file to a backup path in the same directory, writes the new table to a
temporary path, and only then renames the temporary file over the output
path.  If the write is interrupted at any point before that final
rename, the output path holds either the pre-existing file or, once the
backup rename has happened, no file at all: the new content never
appears at the output path before the final rename, and the
pre-existing content survives at the output path or at the backup
path. -/
theorem C1_write_output_crash_safety {β : Type} (dir : OutputDir β)
    (content : β) (k : Nat) (d : β) (hk : k ≤ 2) (hd : dir.output = some d)
    (hne : content ≠ d) :
    ((write_output_state dir content true k).output = some d
      ∨ (write_output_state dir content true k).output = none)
    ∧ ((write_output_state dir content true k).output = some d
      ∨ (write_output_state dir content true k).bak = some d)
    ∧ (write_output_state dir content true k).output ≠ some content := by
  have hds : dir.output.isSome = true := by rw [hd]; rfl
  obtain rfl | rfl | rfl : k = 0 ∨ k = 1 ∨ k = 2 := by omega
  · refine ⟨Or.inl hd, Or.inl hd, ?_⟩
    show dir.output ≠ some content
    rw [hd]
    simp [Ne.symm hne]
  · rw [write_output_state_one]
    simp [hds, hd]
  · rw [write_output_state_two, write_output_state_one]
    simp [hds, hd]

/-- Claim C1, witness for the amended theorem at a concrete directory
and interruption point. -/
theorem C1_witness :
    ((write_output_state ({ output := some 5, bak := none, tmp := none } :
        OutputDir Nat) 7 true 1).output = some 5
      ∨ (write_output_state ({ output := some 5, bak := none, tmp := none } :
        OutputDir Nat) 7 true 1).output = none)
    ∧ ((write_output_state ({ output := some 5, bak := none, tmp := none } :
        OutputDir Nat) 7 true 1).output = some 5
      ∨ (write_output_state ({ output := some 5, bak := none, tmp := none } :
        OutputDir Nat) 7 true 1).bak = some 5)
    ∧ (write_output_state ({ output := some 5, bak := none, tmp := none } :
        OutputDir Nat) 7 true 1).output ≠ some 7 :=
  C1_write_output_crash_safety
    ({ output := some 5, bak := none, tmp := none } : OutputDir Nat)
    7 1 5 (by omega) rfl (by decide)

/-- Claim C3, counterexample: with the stored and the probed entity tag
both present and equal, has_changed does not report unchanged regardless
of the content-length values; the equal entity tags fall through to the
later comparisons, and the differing content lengths make it report
changed with reason content-length changed. -/
theorem C3_counterexample :
    has_changed (some { etag := some ['e'], content_length := some 100 })
        { etag := some ['e'], content_length := some 200 }
      = (true, "content-length changed")
    ∧ ({ etag := some ['e'], content_length := some 100 } :
        CycleState).etag
      = ({ etag := some ['e'], content_length := some 200 } :
        CycleState).etag := by
  decide

/-- Claim C3 (amended): has_changed compares stored and probed metadata
in priority order entity tag, then last-modified, then content length,
each comparison made only when both values are present (and non-empty or
non-zero); a comparison whose two values are present and equal does not
short-circuit the later comparisons.  Given stored metadata with only a
content-length and probed metadata with a different content-length, it
reports content-length changed; given equal present entity tags, absent
last-modified values and differing content lengths it also reports
content-length changed; it reports unchanged when no comparable pair
differs. -/
theorem C3_detection_priority (e : PyStr) (n m : Int) (he : e ≠ [])
    (hn : n ≠ 0) (hm : m ≠ 0) (hnm : n ≠ m) :
    has_changed (some { content_length := some n })
        { content_length := some m }
      = (true, "content-length changed")
    ∧ has_changed (some { etag := some e, content_length := some n })
        { etag := some e, content_length := some m }
      = (true, "content-length changed")
    ∧ has_changed (some { etag := some e, content_length := some n })
        { etag := some e, content_length := some n }
      = (false, "no change") := by
  refine ⟨?_, ?_, ?_⟩ <;>
    simp [has_changed, strTruthy, intTruthy, hn, hm, hnm, Ne.symm hnm,
      List.isEmpty_iff, he, bne_self_eq_false]

/-- Claim C3, witness for the amended theorem at concrete header
values. -/
theorem C3_witness :
    has_changed (some { content_length := some 100 })
        { content_length := some 200 }
      = (true, "content-length changed")
    ∧ has_changed (some { etag := some ['e'], content_length := some 100 })
        { etag := some ['e'], content_length := some 200 }
      = (true, "content-length changed")
    ∧ has_changed (some { etag := some ['e'], content_length := some 100 })
        { etag := some ['e'], content_length := some 100 }
      = (false, "no change") :=
  C3_detection_priority ['e'] 100 200 (by decide) (by decide) (by decide)
    (by decide)

/-- Claim C4, counterexample: with the force flag given but detection
having found one change (for cycle 2020), the run integrates exactly the
detected records: no forced Change Record is synthesized for any
(dataset, period) pair — in particular none for cycle 2022 even though
2022 is a requested period at or after the start year of the configured
dataset.  The synthesis block runs only when detection found no changes
at all. -/
theorem C4_counterexample :
    run_changes_to_integrate [exampleDetected] true exampleConfig
        [2020, 2022]
      = some [exampleDetected]
    ∧ exampleDetected.reason ≠ "forced"
    ∧ exampleCombineDataset.start_year ≤ 2022
    ∧ (2022 : Int) ∈ [(2020 : Int), 2022]
    ∧ ∀ ci ∈ [exampleDetected], ¬(ci.cycle = 2022 ∨ ci.reason = "forced") := by
  decide

/-- Claim C4 (amended): when the --force flag is given and detection
reported no change at all, the workflow synthesizes Change Records with
reason forced for every configured combine dataset and every configured
summarize dataset except expenditures_by_state (which shares its source
file with expenditures_by_category), at every requested period at or
after the start year of that dataset, and passes exactly the synthesized
records to integration; when detection did report changes, only the
detected records are integrated, forced or not. -/
theorem C4_force_synthesis (config : Config) (cycles : List Int)
    (dc : CombineDataset) (ds : SummarizeDataset) (c c2 : Int)
    (hdc : dc ∈ config.combine_datasets) (hc : c ∈ cycles)
    (hcge : dc.start_year ≤ c)
    (hds : ds ∈ config.summarize_datasets)
    (hname : ds.name ≠ "expenditures_by_state")
    (hc2 : c2 ∈ cycles) (hge2 : ds.start_year ≤ c2) :
    run_changes_to_integrate [] true config cycles
      = some (synthesize_forced config cycles)
    ∧ (∃ ci ∈ synthesize_forced config cycles,
        ci.dataset = dc.name ∧ ci.cycle = c ∧ ci.reason = "forced")
    ∧ (∃ ci ∈ synthesize_forced config cycles,
        ci.dataset = ds.name ∧ ci.cycle = c2 ∧ ci.reason = "forced") := by
  refine ⟨rfl, ?_, ?_⟩
  · have hrec : ({ dataset := dc.name, cycle := c,
                   url := get_fec_zip_url config.fec_base_url dc.fec_stub c,
                   reason := "forced" } : ChangeInfo)
        ∈ synthesize_forced config cycles := by
      apply List.mem_append_left
      rw [List.mem_flatMap]
      refine ⟨dc, hdc, ?_⟩
      rw [List.mem_map]
      exact ⟨c, by rw [List.mem_filter]; exact ⟨hc, by simpa using hcge⟩, rfl⟩
    exact ⟨_, hrec, rfl, rfl, rfl⟩
  · have hrec : ({ dataset := ds.name, cycle := c2,
                   url := get_fec_zip_url config.fec_base_url ds.fec_stub c2,
                   reason := "forced" } : ChangeInfo)
        ∈ synthesize_forced config cycles := by
      apply List.mem_append_right
      rw [List.mem_flatMap]
      refine ⟨ds, hds, ?_⟩
      rw [if_neg hname, List.mem_map]
      exact ⟨c2, by rw [List.mem_filter]; exact ⟨hc2, by simpa using hge2⟩, rfl⟩
    exact ⟨_, hrec, rfl, rfl, rfl⟩

/-- Claim C4, witness for the amended theorem at the example
configuration with requested periods 2020 and 2022. -/
theorem C4_witness :
    run_changes_to_integrate [] true exampleConfig [2020, 2022]
      = some (synthesize_forced exampleConfig [2020, 2022])
    ∧ (∃ ci ∈ synthesize_forced exampleConfig [2020, 2022],
        ci.dataset = exampleCombineDataset.name ∧ ci.cycle = 2020
          ∧ ci.reason = "forced")
    ∧ (∃ ci ∈ synthesize_forced exampleConfig [2020, 2022],
        ci.dataset = exampleSummarizeDataset.name ∧ ci.cycle = 2022
          ∧ ci.reason = "forced") :=
  C4_force_synthesis exampleConfig [2020, 2022] exampleCombineDataset
    exampleSummarizeDataset 2020 2022 (by decide) (by decide) (by decide)
    (by decide) (by decide) (by decide) (by decide)

/-- Claim C2: integrating a Change Record for a period P through
update_cycle removes every previously stored row whose period equals P
and appends exactly the rows produced by the transform for P: after the
write, the row-set of the output file at period P is exactly the
transform output for P (zero leftover rows from the prior version of P),
and the row-set at every other period Q is exactly what was stored for
Q, so at most one row-set corresponds to any period.  This holds for
both processors. -/
theorem C2_replace_not_duplicate {α κ : Type} [DecidableEq κ]
    (raw_c : List α) (existing_c : List (Int × α))
    (raw_s : List (SummarizeProcessor.InRecord κ))
    (existing_s : List (SummarizeProcessor.OutRow κ))
    (le : SummarizeProcessor.OutRow κ → SummarizeProcessor.OutRow κ → Bool)
    (P Q : Int) (hQP : Q ≠ P) :
    (((CombineProcessor.update_cycle (some existing_c) raw_c P).filter
          (fun r => r.1 == P) : Multiset (Int × α))
        = (CombineProcessor.process_cycle raw_c P : Multiset (Int × α)))
    ∧ (((CombineProcessor.update_cycle (some existing_c) raw_c P).filter
          (fun r => r.1 == Q) : Multiset (Int × α))
        = (existing_c.filter (fun r => r.1 == Q) : Multiset (Int × α)))
    ∧ (((SummarizeProcessor.update_cycle le (some existing_s) raw_s P).filter
          (fun r => r.election_cycle == P) :
            Multiset (SummarizeProcessor.OutRow κ))
        = (SummarizeProcessor.process_cycle raw_s P :
            Multiset (SummarizeProcessor.OutRow κ)))
    ∧ (((SummarizeProcessor.update_cycle le (some existing_s) raw_s P).filter
          (fun r => r.election_cycle == Q) :
            Multiset (SummarizeProcessor.OutRow κ))
        = (existing_s.filter (fun r => r.election_cycle == Q) :
            Multiset (SummarizeProcessor.OutRow κ))) := by
  refine ⟨?_, ?_, ?_, ?_⟩
  · simpa only [CombineProcessor.update_cycle, CombineProcessor.append_cycle,
      CombineProcessor.remove_cycle, CombineProcessor.sort_output] using
      sorted_update_filter_self (fun a b => decide (a.1 ≤ b.1))
        (fun r => r.1) existing_c (CombineProcessor.process_cycle raw_c P) P
        (combine_process_cycle_all_cycle raw_c P)
  · simpa only [CombineProcessor.update_cycle, CombineProcessor.append_cycle,
      CombineProcessor.remove_cycle, CombineProcessor.sort_output] using
      sorted_update_filter_other (fun a b => decide (a.1 ≤ b.1))
        (fun r => r.1) existing_c (CombineProcessor.process_cycle raw_c P)
        (combine_process_cycle_all_cycle raw_c P) hQP
  · simpa only [SummarizeProcessor.update_cycle,
      SummarizeProcessor.append_cycle, SummarizeProcessor.remove_cycle] using
      sorted_update_filter_self le (fun r => r.election_cycle) existing_s
        (SummarizeProcessor.process_cycle raw_s P) P
        (summarize_process_cycle_all_cycle raw_s P)
  · simpa only [SummarizeProcessor.update_cycle,
      SummarizeProcessor.append_cycle, SummarizeProcessor.remove_cycle] using
      sorted_update_filter_other le (fun r => r.election_cycle) existing_s
        (SummarizeProcessor.process_cycle raw_s P)
        (summarize_process_cycle_all_cycle raw_s P) hQP

/-- Claim C2, witness at a concrete file with two periods and a concrete
new transform input for period 2022. -/
theorem C2_witness :
    (((CombineProcessor.update_cycle (some [(2020, 1), (2022, 9)]) [4, 5]
          2022).filter (fun r => r.1 == 2022) : Multiset (Int × Nat))
        = (CombineProcessor.process_cycle [4, 5] 2022 : Multiset (Int × Nat)))
    ∧ (((CombineProcessor.update_cycle (some [(2020, 1), (2022, 9)]) [4, 5]
          2022).filter (fun r => r.1 == 2020) : Multiset (Int × Nat))
        = ((([(2020, 1), (2022, 9)] : List (Int × Nat)).filter
            (fun r => r.1 == 2020) : List (Int × Nat)) :
            Multiset (Int × Nat)))
    ∧ (((SummarizeProcessor.update_cycle (fun _ _ => true)
          (some [exampleOutRow]) ([] : List (SummarizeProcessor.InRecord Int))
          2022).filter (fun r => r.election_cycle == 2022) :
            Multiset (SummarizeProcessor.OutRow Int))
        = (SummarizeProcessor.process_cycle
            ([] : List (SummarizeProcessor.InRecord Int)) 2022 :
              Multiset (SummarizeProcessor.OutRow Int)))
    ∧ (((SummarizeProcessor.update_cycle (fun _ _ => true)
          (some [exampleOutRow]) ([] : List (SummarizeProcessor.InRecord Int))
          2022).filter (fun r => r.election_cycle == 2020) :
            Multiset (SummarizeProcessor.OutRow Int))
        = ([exampleOutRow].filter (fun r => r.election_cycle == 2020) :
            Multiset (SummarizeProcessor.OutRow Int))) :=
  C2_replace_not_duplicate [4, 5] [(2020, 1), (2022, 9)] [] [exampleOutRow]
    (fun _ _ => true) 2022 2020 (by decide)

/-- Claim C6: integrating the same Change Record twice in succession
over the same source content yields an identical row-set for that period
in the output file (for both processors, starting from any prior file
state), and re-running detection afterwards against unchanged upstream
metadata — a probe returning exactly the metadata captured in the
record, which a successful integration stored — reports no change. -/
theorem C6_idempotence {α κ : Type} [DecidableEq κ]
    (raw_c : List α) (existing_c : Option (List (Int × α)))
    (raw_s : List (SummarizeProcessor.InRecord κ))
    (existing_s : Option (List (SummarizeProcessor.OutRow κ)))
    (le : SummarizeProcessor.OutRow κ → SummarizeProcessor.OutRow κ → Bool)
    (c : Int) (st : UpdateState) (ci : ChangeInfo) (now : PyStr) :
    (((CombineProcessor.update_cycle
          (some (CombineProcessor.update_cycle existing_c raw_c c)) raw_c
          c).filter (fun r => r.1 == c) : Multiset (Int × α))
        = ((CombineProcessor.update_cycle existing_c raw_c c).filter
            (fun r => r.1 == c) : Multiset (Int × α)))
    ∧ (((SummarizeProcessor.update_cycle le
          (some (SummarizeProcessor.update_cycle le existing_s raw_s c))
          raw_s c).filter (fun r => r.election_cycle == c) :
            Multiset (SummarizeProcessor.OutRow κ))
        = ((SummarizeProcessor.update_cycle le existing_s raw_s c).filter
            (fun r => r.election_cycle == c) :
              Multiset (SummarizeProcessor.OutRow κ)))
    ∧ has_changed
        ((st.update_cycle ci.dataset ci.cycle ci.new_etag
            ci.new_last_modified ci.new_content_length now).get_cycle_state
          ci.dataset ci.cycle)
        { etag := ci.new_etag, last_modified := ci.new_last_modified,
          content_length := ci.new_content_length }
      = (false, "no change") := by
  refine ⟨?_, ?_, ?_⟩
  · have hfirst : ((CombineProcessor.update_cycle existing_c raw_c c).filter
        (fun r => r.1 == c) : Multiset (Int × α))
        = (CombineProcessor.process_cycle raw_c c : Multiset (Int × α)) := by
      cases existing_c with
      | none =>
        exact sorted_update_filter_self (fun a b => decide (a.1 ≤ b.1))
          (fun r => r.1) [] (CombineProcessor.process_cycle raw_c c) c
          (combine_process_cycle_all_cycle raw_c c)
      | some e =>
        simpa only [CombineProcessor.update_cycle,
          CombineProcessor.append_cycle, CombineProcessor.remove_cycle,
          CombineProcessor.sort_output] using
          sorted_update_filter_self (fun a b => decide (a.1 ≤ b.1))
            (fun r => r.1) e (CombineProcessor.process_cycle raw_c c) c
            (combine_process_cycle_all_cycle raw_c c)
    have hsecond : ((CombineProcessor.update_cycle
        (some (CombineProcessor.update_cycle existing_c raw_c c)) raw_c
        c).filter (fun r => r.1 == c) : Multiset (Int × α))
        = (CombineProcessor.process_cycle raw_c c : Multiset (Int × α)) := by
      simpa only [CombineProcessor.update_cycle,
        CombineProcessor.append_cycle, CombineProcessor.remove_cycle,
        CombineProcessor.sort_output] using
        sorted_update_filter_self (fun a b => decide (a.1 ≤ b.1))
          (fun r => r.1) (CombineProcessor.update_cycle existing_c raw_c c)
          (CombineProcessor.process_cycle raw_c c) c
          (combine_process_cycle_all_cycle raw_c c)
    exact hsecond.trans hfirst.symm
  · have hfirst : ((SummarizeProcessor.update_cycle le existing_s raw_s
        c).filter (fun r => r.election_cycle == c) :
          Multiset (SummarizeProcessor.OutRow κ))
        = (SummarizeProcessor.process_cycle raw_s c :
            Multiset (SummarizeProcessor.OutRow κ)) := by
      cases existing_s with
      | none =>
        exact sorted_update_filter_self le (fun r => r.election_cycle) []
          (SummarizeProcessor.process_cycle raw_s c) c
          (summarize_process_cycle_all_cycle raw_s c)
      | some e =>
        simpa only [SummarizeProcessor.update_cycle,
          SummarizeProcessor.append_cycle,
          SummarizeProcessor.remove_cycle] using
          sorted_update_filter_self le (fun r => r.election_cycle) e
            (SummarizeProcessor.process_cycle raw_s c) c
            (summarize_process_cycle_all_cycle raw_s c)
    have hsecond : ((SummarizeProcessor.update_cycle le
        (some (SummarizeProcessor.update_cycle le existing_s raw_s c)) raw_s
        c).filter (fun r => r.election_cycle == c) :
          Multiset (SummarizeProcessor.OutRow κ))
        = (SummarizeProcessor.process_cycle raw_s c :
            Multiset (SummarizeProcessor.OutRow κ)) := by
      simpa only [SummarizeProcessor.update_cycle,
        SummarizeProcessor.append_cycle,
        SummarizeProcessor.remove_cycle] using
        sorted_update_filter_self le (fun r => r.election_cycle)
          (SummarizeProcessor.update_cycle le existing_s raw_s c)
          (SummarizeProcessor.process_cycle raw_s c) c
          (summarize_process_cycle_all_cycle raw_s c)
    exact hsecond.trans hfirst.symm
  · rw [get_update_cycle_same]
    simp [has_changed, bne_self_eq_false]

/-- Claim C5, counterexample: on a synthetic input with one memo-marked
record, one amendment-marked record, and two duplicate-key original
records (amounts 10 and 20), the Aggregate Transform output is exactly
one row whose total is 10, the first original record alone — not 30, the
two original amounts combined: deduplication by the natural key runs
before the summation, so the second duplicate never contributes. -/
theorem C5_counterexample :
    SummarizeProcessor.process_cycle
      [exampleMemoRecord, exampleAmendmentRecord, exampleOriginalA,
        exampleOriginalB] 2024
    = [ { election_cycle := 2024, transaction_year := some 2024,
          dims := ['A'], total_amount := 10, transaction_count := 1 } ]
    ∧ exampleOriginalA.amount + exampleOriginalB.amount ≠ 10 := by
  decide

/-- Claim C5 (amended): the Aggregate Transform applies its steps in
this exact order: drop records whose memo-marker column equals the memo
sentinel, drop records whose amendment-marker column is present and not
equal to the original sentinel, deduplicate by the natural record key
keeping the first occurrence, derive the year from the date column, then
group and sum; consequently, for a synthetic input with one memo-marked
record, one amendment-marked record, and two original records sharing
the natural record key, the output contains exactly one row carrying
only the first original record: its amount as the total, a count of one
(memo and amendment rows excluded; the second duplicate dropped before
summation). -/
theorem C5_aggregate_steps {κ : Type} [DecidableEq κ] (cycle : Int)
    (m a o1 o2 : SummarizeProcessor.InRecord κ)
    (hm : m.memo_cd = some ['X'])
    (ham : a.memo_cd = none)
    (haa : ∃ v, a.amndt_ind = some v ∧ v ≠ ['N'])
    (ho1m : o1.memo_cd = none) (ho1a : o1.amndt_ind = some ['N'])
    (ho2m : o2.memo_cd = none) (ho2a : o2.amndt_ind = some ['N'])
    (hdup : o2.sub_id = o1.sub_id) :
    SummarizeProcessor.process_cycle [m, a, o1, o2] cycle
    = [ { election_cycle := cycle,
          transaction_year := extract_year_from_date o1.transaction_dt,
          dims := o1.dims, total_amount := o1.amount,
          transaction_count := 1 } ] := by
  obtain ⟨v, hav, hvne⟩ := haa
  have hfilters :
      SummarizeProcessor.amendment_filter
        (SummarizeProcessor.memo_filter [m, a, o1, o2]) = [o1, o2] := by
    simp [SummarizeProcessor.memo_filter, SummarizeProcessor.amendment_filter,
      List.filter_cons, hm, ham, hav, ho1m, ho1a, ho2m, ho2a, hvne]
  have hdedup : SummarizeProcessor.dedup_first [] [o1, o2] = [o1] := by
    simp [SummarizeProcessor.dedup_first, hdup]
  rw [SummarizeProcessor.process_cycle, hfilters, hdedup]
  simp [SummarizeProcessor.group_and_aggregate, firstOccs,
    SummarizeProcessor.group_key, List.filter_cons]

/-- Claim C5, witness for the amended theorem at the concrete synthetic
records. -/
theorem C5_witness :
    SummarizeProcessor.process_cycle
      [exampleMemoRecord, exampleAmendmentRecord, exampleOriginalA,
        exampleOriginalB] 2022
    = [ { election_cycle := 2022,
          transaction_year :=
            extract_year_from_date exampleOriginalA.transaction_dt,
          dims := exampleOriginalA.dims,
          total_amount := exampleOriginalA.amount,
          transaction_count := 1 } ] :=
  C5_aggregate_steps 2022 exampleMemoRecord exampleAmendmentRecord
    exampleOriginalA exampleOriginalB rfl rfl ⟨['A'], rfl, by decide⟩ rfl rfl
    rfl rfl rfl

lemma integrate_changes_count (outcome : ChangeInfo → ProcessOutcome)
    (dry_run : Bool) (now : PyStr) :
    ∀ (changes : List ChangeInfo) (st : UpdateState),
      (integrate_changes changes outcome st dry_run now).1
        + (integrate_changes changes outcome st dry_run now).2.1
      = changes.length := by
  intro changes
  induction changes with
  | nil => intro st; rfl
  | cons ch rest ih =>
    intro st
    cases hoc : outcome ch with
    | ok b =>
      cases b with
      | false =>
        simp only [integrate_changes, hoc, List.length_cons]
        have := ih st
        omega
      | true =>
        simp only [integrate_changes, hoc, List.length_cons]
        have := ih (if dry_run then st
          else st.update_cycle ch.dataset ch.cycle ch.new_etag
            ch.new_last_modified ch.new_content_length now)
        omega
    | raised msg =>
      simp only [integrate_changes, hoc, List.length_cons]
      have := ih st
      omega

lemma integrate_changes_state_untouched (outcome : ChangeInfo → ProcessOutcome)
    (dry_run : Bool) (now : PyStr) (d : String) (c : Int) :
    ∀ (changes : List ChangeInfo) (st : UpdateState),
      (∀ ch ∈ changes, outcome ch = ProcessOutcome.ok true →
        ¬(ch.dataset = d ∧ ch.cycle = c)) →
      (integrate_changes changes outcome st dry_run now).2.2.get_cycle_state
          d c
        = st.get_cycle_state d c := by
  intro changes
  induction changes with
  | nil => intro st _; rfl
  | cons ch rest ih =>
    intro st hno
    have hnorest : ∀ ch2 ∈ rest, outcome ch2 = ProcessOutcome.ok true →
        ¬(ch2.dataset = d ∧ ch2.cycle = c) :=
      fun ch2 hm => hno ch2 (List.mem_cons_of_mem ch hm)
    cases hoc : outcome ch with
    | ok b =>
      cases b with
      | false =>
        simp only [integrate_changes, hoc]
        exact ih st hnorest
      | true =>
        simp only [integrate_changes, hoc]
        by_cases hdry : dry_run = true
        · rw [if_pos hdry]
          exact ih st hnorest
        · rw [if_neg hdry]
          rw [ih _ hnorest]
          exact get_update_cycle_other st ch.dataset ch.cycle ch.new_etag
            ch.new_last_modified ch.new_content_length now
            (hno ch (List.mem_cons_self ch rest) hoc)
    | raised msg =>
      simp only [integrate_changes, hoc]
      exact ih st hnorest

/-- Claim C7: a failure or exception while processing one Change Record
is caught at the integrate_changes boundary and counted as failed
without stopping the run — every record in the list is attempted and
accounted, successful plus failed equalling the number of records; the
Update State entry of any (dataset, cycle) pair not successfully
integrated in the run is untouched; and the run persists the state at
most once, after all records have been attempted, the saved state being
the final one. -/
theorem C7_failure_isolation (changes : List ChangeInfo)
    (outcome : ChangeInfo → ProcessOutcome) (state : UpdateState)
    (dry_run : Bool) (now : PyStr) (check_time : String) (d : String)
    (c : Int)
    (hno : ∀ ch ∈ changes, outcome ch = ProcessOutcome.ok true →
      ¬(ch.dataset = d ∧ ch.cycle = c)) :
    (integrate_changes changes outcome state dry_run now).1
      + (integrate_changes changes outcome state dry_run now).2.1
      = changes.length
    ∧ (integrate_changes changes outcome state dry_run now).2.2.get_cycle_state
        d c
      = state.get_cycle_state d c
    ∧ (run_after_detect changes outcome state dry_run now
        check_time).saves.length ≤ 1
    ∧ ((run_after_detect changes outcome state dry_run now check_time).saves
        ≠ [] →
      (run_after_detect changes outcome state dry_run now check_time).saves
      = [(run_after_detect changes outcome state dry_run now
          check_time).final_state]) := by
  refine ⟨integrate_changes_count outcome dry_run now changes state,
    integrate_changes_state_untouched outcome dry_run now d c changes state
      hno, ?_, ?_⟩
  · simp only [run_after_detect]
    split <;> simp
  · simp only [run_after_detect]
    split <;> simp

/-- Claim C7, witness: a run over one raising record followed by one
succeeding record, observed at a (dataset, cycle) pair that no
successful record touches. -/
theorem C7_witness :
    (integrate_changes [exampleChangeFailing, exampleChangeOk]
        exampleOutcome {} false ['t']).1
      + (integrate_changes [exampleChangeFailing, exampleChangeOk]
          exampleOutcome {} false ['t']).2.1
      = [exampleChangeFailing, exampleChangeOk].length
    ∧ (integrate_changes [exampleChangeFailing, exampleChangeOk]
        exampleOutcome {} false ['t']).2.2.get_cycle_state "other" 0
      = ({} : UpdateState).get_cycle_state "other" 0
    ∧ (run_after_detect [exampleChangeFailing, exampleChangeOk]
        exampleOutcome {} false ['t'] "2026-01-01").saves.length ≤ 1
    ∧ ((run_after_detect [exampleChangeFailing, exampleChangeOk]
        exampleOutcome {} false ['t'] "2026-01-01").saves ≠ [] →
      (run_after_detect [exampleChangeFailing, exampleChangeOk]
        exampleOutcome {} false ['t'] "2026-01-01").saves
      = [(run_after_detect [exampleChangeFailing, exampleChangeOk]
          exampleOutcome {} false ['t'] "2026-01-01").final_state]) :=
  C7_failure_isolation [exampleChangeFailing, exampleChangeOk]
    exampleOutcome {} false ['t'] "2026-01-01" "other" 0 (by decide)

/-- Claim C8, counterexample: the claim says a string of any length
other than 8 yields no value, but the 7-character string 1152024 (the
MDDYYYY form the source also recognizes) yields the year 2024. -/
theorem C8_counterexample :
    extract_year_from_date (some "1152024".toList) = some 2024
    ∧ extract_month_from_date (some "1152024".toList) = some 1
    ∧ ("1152024".toList).length ≠ 8 := by
  decide

/-- Claim C8 (amended): for every valid 8-character date string MMDDYYYY
(all digits), extract_year_from_date returns the last 4 characters as an
integer and extract_month_from_date returns the first 2 characters as an
integer; a string that matches none of the three recognized shapes
yields no value for both — in particular every already-stripped string
without a slash whose length is neither 7 nor 8 (slash-delimited and
7-character strings are recognized too, so only those shapes fall
through to no value).  Both functions are total: no input raises. -/
theorem C8_date_extraction :
    (∀ s : PyStr, s.length = 8 → s.all Char.isDigit = true →
      extract_year_from_date (some s)
          = some (Int.ofNat (decimalVal (s.drop 4)))
        ∧ extract_month_from_date (some s)
          = some (Int.ofNat (decimalVal (s.take 2))))
    ∧ (∀ s : PyStr, pyStrip s = s → s.contains '/' = false →
        s.length ≠ 7 → s.length ≠ 8 →
      extract_year_from_date (some s) = none
        ∧ extract_month_from_date (some s) = none) := by
  constructor
  · intro s h8 hdig
    have hstrip := pyStrip_of_digits hdig
    have hsl := contains_slash_false hdig
    have hne : s ≠ [] := by
      intro h
      rw [h] at h8
      cases h8
    have hmem : ∀ x ∈ s, x.isDigit = true := List.all_eq_true.mp hdig
    constructor
    · have hdlen : (s.drop 4).length = 4 := by rw [List.length_drop, h8]
      have hdne : s.drop 4 ≠ [] := by
        intro hh
        rw [hh] at hdlen
        cases hdlen
      have hddig : (s.drop 4).all Char.isDigit = true :=
        List.all_eq_true.mpr (fun x hx => hmem x (List.drop_subset 4 s hx))
      have hsub : (s.drop 4).take 4 = s.drop 4 :=
        List.take_of_length_le (le_of_eq hdlen)
      simp only [extract_year_from_date, hstrip, hsl]
      rw [if_neg hne]
      simp only [Bool.false_eq_true, if_false, yearByLength, h8, if_pos]
      rw [hsub]
      exact pyInt_of_digits hdne hddig
    · have htlen : (s.take 2).length = 2 := by
        rw [List.length_take, h8]
        omega
      have htne : s.take 2 ≠ [] := by
        intro hh
        rw [hh] at htlen
        cases htlen
      have htdig : (s.take 2).all Char.isDigit = true :=
        List.all_eq_true.mpr (fun x hx => hmem x (List.take_subset 2 s hx))
      simp only [extract_month_from_date, hstrip, hsl]
      rw [if_neg hne]
      simp only [Bool.false_eq_true, if_false, monthByLength, h8, if_pos]
      exact pyInt_of_digits htne htdig
  · intro s hstrip hsl h7 h8
    by_cases hnil : s = []
    · subst hnil
      exact ⟨rfl, rfl⟩
    · constructor
      · simp only [extract_year_from_date, hstrip, hsl]
        rw [if_neg hnil]
        simp [yearByLength, h7, h8]
      · simp only [extract_month_from_date, hstrip, hsl]
        rw [if_neg hnil]
        simp [monthByLength, h7, h8]

/-- Claim C8, witness: the amended theorem at the valid 8-character date
01152024 and at the unrecognized 3-character string 123. -/
theorem C8_witness :
    (extract_year_from_date (some "01152024".toList)
        = some (Int.ofNat (decimalVal ("01152024".toList.drop 4)))
      ∧ extract_month_from_date (some "01152024".toList)
        = some (Int.ofNat (decimalVal ("01152024".toList.take 2))))
    ∧ (extract_year_from_date (some "123".toList) = none
      ∧ extract_month_from_date (some "123".toList) = none) :=
  ⟨C8_date_extraction.1 "01152024".toList (by decide) (by decide),
    C8_date_extraction.2 "123".toList (by decide) (by decide) (by decide)
      (by decide)⟩

/-- Claim C9, counterexample: the verifier accepts without any issue an
existing output file that is missing a declared output column (CAND_ID)
and whose only period value, 9999, lies outside any plausible historical
range — it checks neither the declared column list nor a period range on
existing files, so the claim overstates the checks. -/
theorem C9_counterexample :
    verify_all [exampleCombineDataset] []
        (fun f => if f = "candidates.csv" then some exampleFrame else none)
      = [validate_file "candidates.csv" exampleFrame]
    ∧ (validate_file "candidates.csv" exampleFrame).issues = []
    ∧ "CAND_ID" ∈ exampleCombineDataset.columns
    ∧ exampleFrame.columns.contains "CAND_ID" = false
    ∧ (∀ row ∈ exampleFrame.rows, cellOf row "election_cycle" = some 9999)
    ∧ (2100 : Int) < 9999 := by
  decide

/-- Claim C9 (amended): for a configured dataset whose output file
exists, the verifier checks exactly: that the period column
election_cycle is present, that it has no null values (reporting the
count when there are any), and that the file is non-empty — an existing
file is issue-free precisely when these three hold (for aggregate
outputs the transaction-amount issues are appended in addition); it
computes but does not range-check the least and greatest period, and it
does not check the other declared output columns.  A dataset whose
output file is missing is reported with a distinct file-not-found issue
rather than silently skipped, and the verifier never mutates any
data. -/
theorem C9_verifier_checks (file_name : String) (df : DFrame)
    (combine : List CombineDataset) (summarize : List SummarizeDataset)
    (fs : String → Option DFrame) (d : CombineDataset)
    (hd : d ∈ combine) (hmiss : fs d.output_file = none) :
    ((validate_file file_name df).issues = [] ↔
      (df.columns.contains "election_cycle" = true
        ∧ (df.rows.filter
            (fun r => (cellOf r "election_cycle").isNone)).length = 0
        ∧ df.rows ≠ []))
    ∧ missing_file_result d.output_file ∈ verify_all combine summarize fs := by
  constructor
  · by_cases hec : df.columns.contains "election_cycle" = true
    · have hecm : "election_cycle" ∈ df.columns := by simpa using hec
      by_cases hnc : (df.rows.filter
          (fun r => (cellOf r "election_cycle").isNone)).length = 0
      · by_cases hrow : df.rows.length = 0
        · have hrnil : df.rows = [] := List.length_eq_zero.mp hrow
          simp [validate_file, hec, hecm, hnc, hrow, hrnil]
        · have hrne : df.rows ≠ [] := fun hh => hrow (by rw [hh]; rfl)
          simp [validate_file, hec, hecm, hnc, hrow, hrne]
      · by_cases hrow : df.rows.length = 0
        · simp [validate_file, hec, hecm, hnc, hrow]
        · simp [validate_file, hec, hecm, hnc, hrow]
    · have hecm : "election_cycle" ∉ df.columns := by simpa using hec
      by_cases hrow : df.rows.length = 0
      · simp [validate_file, hec, hecm, hrow]
      · simp [validate_file, hec, hecm, hrow]
  · apply List.mem_append_left
    rw [List.mem_map]
    refine ⟨d, hd, ?_⟩
    rw [hmiss]

/-- Claim C9, witness: the amended theorem at the example frame and a
configuration whose output file is absent from the file system. -/
theorem C9_witness :
    ((validate_file "candidates.csv" exampleFrame).issues = [] ↔
      (exampleFrame.columns.contains "election_cycle" = true
        ∧ (exampleFrame.rows.filter
            (fun r => (cellOf r "election_cycle").isNone)).length = 0
        ∧ exampleFrame.rows ≠ []))
    ∧ missing_file_result exampleCombineDataset.output_file
      ∈ verify_all [exampleCombineDataset] [] (fun _ => none) :=
  C9_verifier_checks "candidates.csv" exampleFrame [exampleCombineDataset]
    [] (fun _ => none) exampleCombineDataset (by decide) rfl

lemma synthesize_forced_no_metadata (config : Config) (cycles : List Int)
    (ci : ChangeInfo) (hci : ci ∈ synthesize_forced config cycles) :
    ci.new_etag = none ∧ ci.new_last_modified = none
      ∧ ci.new_content_length = none := by
  rcases List.mem_append.mp hci with h1 | h1
  · rcases List.mem_flatMap.mp h1 with ⟨d, _, hm⟩
    rcases List.mem_map.mp hm with ⟨c, _, hrec⟩
    rw [← hrec]
    exact ⟨rfl, rfl, rfl⟩
  · rcases List.mem_flatMap.mp h1 with ⟨d, _, hm⟩
    by_cases hn : d.name = "expenditures_by_state"
    · rw [if_pos hn] at hm
      cases hm
    · rw [if_neg hn] at hm
      rcases List.mem_map.mp hm with ⟨c, _, hrec⟩
      rw [← hrec]
      exact ⟨rfl, rfl, rfl⟩

/-- Claim C10: a forced Change Record carries no captured metadata, so a
successful forced integration stores a Period Metadata entry whose
entity tag, last-modified and content-length are all absent; against
such a stored entry has_changed reports no change for every possible
probed metadata value — after one forced integration of a pair, no
upstream change to that pair is ever detected until another forced
run. -/
theorem C10_forced_blinds_detection (config : Config) (cycles : List Int)
    (ci : ChangeInfo) (hci : ci ∈ synthesize_forced config cycles)
    (st : UpdateState) (now : PyStr) (probed : CycleState) :
    has_changed
      ((st.update_cycle ci.dataset ci.cycle ci.new_etag ci.new_last_modified
          ci.new_content_length now).get_cycle_state ci.dataset ci.cycle)
      probed
    = (false, "no change") := by
  obtain ⟨he, hl, hc⟩ := synthesize_forced_no_metadata config cycles ci hci
  rw [he, hl, hc, get_update_cycle_same]
  simp [has_changed, strTruthy, intTruthy]

/-- Claim C10, witness: the first forced record of the example
configuration, probed afterwards with fully populated upstream
metadata, is still reported unchanged. -/
theorem C10_witness :
    has_changed
      ((({} : UpdateState).update_cycle
          ({ dataset := "candidates", cycle := 2020,
             url := get_fec_zip_url exampleConfig.fec_base_url
               exampleCombineDataset.fec_stub 2020,
             reason := "forced" } : ChangeInfo).dataset
          ({ dataset := "candidates", cycle := 2020,
             url := get_fec_zip_url exampleConfig.fec_base_url
               exampleCombineDataset.fec_stub 2020,
             reason := "forced" } : ChangeInfo).cycle
          ({ dataset := "candidates", cycle := 2020,
             url := get_fec_zip_url exampleConfig.fec_base_url
               exampleCombineDataset.fec_stub 2020,
             reason := "forced" } : ChangeInfo).new_etag
          ({ dataset := "candidates", cycle := 2020,
             url := get_fec_zip_url exampleConfig.fec_base_url
               exampleCombineDataset.fec_stub 2020,
             reason := "forced" } : ChangeInfo).new_last_modified
          ({ dataset := "candidates", cycle := 2020,
             url := get_fec_zip_url exampleConfig.fec_base_url
               exampleCombineDataset.fec_stub 2020,
             reason := "forced" } : ChangeInfo).new_content_length
          ['t']).get_cycle_state
        ({ dataset := "candidates", cycle := 2020,
           url := get_fec_zip_url exampleConfig.fec_base_url
             exampleCombineDataset.fec_stub 2020,
           reason := "forced" } : ChangeInfo).dataset
        ({ dataset := "candidates", cycle := 2020,
           url := get_fec_zip_url exampleConfig.fec_base_url
             exampleCombineDataset.fec_stub 2020,
           reason := "forced" } : ChangeInfo).cycle)
      { etag := some ['q'], last_modified := some ['w'],
        content_length := some 5 }
    = (false, "no change") :=
  C10_forced_blinds_detection exampleConfig [2020, 2022]
    ({ dataset := "candidates", cycle := 2020,
       url := get_fec_zip_url exampleConfig.fec_base_url
         exampleCombineDataset.fec_stub 2020,
       reason := "forced" } : ChangeInfo)
    (by decide) {} ['t']
    { etag := some ['q'], last_modified := some ['w'],
      content_length := some 5 }

end FecModel
